import Mathlib

/-!
Shallow embedding of `src/app.py` (class `CreditCardValidator`): a
credit-card number validator that normalizes input, classifies the brand
by an ordered table of anchored regular expressions, and checks the Luhn
checksum.  Python dict results are embedded as association lists from
string keys to a value type `PyVal`, so that the presence or absence of a
key in a returned dict is observable.
-/

/-- Embeds the values that appear in the dicts returned by
`validate_card`: booleans, strings, and Python `None`. -/
inductive PyVal where
  | pyBool (b : Bool)
  | pyStr (s : String)
  | pyNone
deriving DecidableEq, Repr

/-- A Python dict with string keys, embedded as an association list in
insertion order. -/
abbrev PyDict := List (String × PyVal)

/-- Embeds `d[k]` access as an option: `dictGet d k = some v` when key `k`
is present with value `v`, `none` when the key is absent. -/
def dictGet (d : PyDict) (k : String) : Option PyVal :=
  (d.find? (fun p => p.1 == k)).map (fun p => p.2)

/-- Embeds `k in d`: whether the dict has the key at all. -/
def hasKey (d : PyDict) (k : String) : Bool :=
  d.any (fun p => p.1 == k)

/-- Embeds `clean_card_number` (src/app.py line 21-23):
`re.sub(r'[^0-9]', '', str(card_number))` keeps exactly the ASCII digit
characters, in order.  `Char.isDigit` decides membership in the class 0-9. -/
def clean_card_number (card_number : String) : String :=
  String.mk (card_number.data.filter Char.isDigit)

/-- Embeds Python `str.isdigit()` on the strings this program produces:
true exactly when the string is non-empty and every character is a
decimal digit. -/
def pyIsDigit (s : String) : Bool :=
  !s.data.isEmpty && s.data.all Char.isDigit

/-- Embeds `digits_of` (src/app.py line 27-28) applied to a string:
the list of digit values of its characters, `int(d) for d in str(number)`. -/
def digits_of (s : String) : List Nat :=
  s.data.map (fun c => c.toNat - '0'.toNat)

/-- Embeds `digits_of` applied to a natural number, as in
`sum(digits_of(digit * 2))` (src/app.py line 36): Python first renders the
number in decimal (`str(number)`, so 0 renders as "0") and then maps each
character to its digit value. -/
def digits_of_nat (n : Nat) : List Nat :=
  (Nat.toDigits 10 n).map (fun c => c.toNat - '0'.toNat)

/-- Embeds the Python extended slice `l[-1::-2]` after reversing: every
second element of a list starting from the first. -/
def everyOther : List Nat → List Nat
  | [] => []
  | [a] => [a]
  | a :: _ :: rest => a :: everyOther rest

/-- Embeds `luhn_algorithm` (src/app.py line 25-38).
`digits[-1::-2]` is every second digit counted from the rightmost
(`everyOther digits.reverse`), `digits[-2::-2]` every second digit counted
from the second-rightmost (`everyOther (digits.reverse.drop 1)`); even
digits are doubled and their decimal digits summed; valid iff the total is
divisible by 10. -/
def luhn_algorithm (card_number : String) : Bool :=
  let digits := digits_of card_number
  let odd_digits := everyOther digits.reverse
  let even_digits := everyOther (digits.reverse.drop 1)
  let checksum := odd_digits.sum +
    (even_digits.map (fun digit => (digits_of_nat (digit * 2)).sum)).sum
  checksum % 10 == 0

/-- Whether the character at index `i` exists and is a decimal digit:
embeds one `[0-9]` occurrence of a regex at a known offset. -/
def isDigitAt (l : List Char) (i : Nat) : Bool :=
  match l.get? i with
  | some c => c.isDigit
  | none => false

/-- Whether the character at index `i` exists and belongs to the listed
character class: embeds a regex character class at a known offset. -/
def inClass (l : List Char) (i : Nat) (cs : List Char) : Bool :=
  match l.get? i with
  | some c => cs.contains c
  | none => false

/-- Embeds the Visa pattern (src/app.py line 9):
a 4, then 12 digits, then optionally 3 more digits, anchored at both ends,
so total length 13 or 16. -/
def matchVisa (l : List Char) : Bool :=
  l.take 1 == ['4'] && (l.drop 1).all Char.isDigit &&
    ((l.drop 1).length == 12 || (l.drop 1).length == 15)

/-- Embeds the MasterCard pattern (src/app.py line 10): a 5 followed by
1-5 and 14 digits, or a 2 followed by 2-7 and 14 digits, anchored. -/
def matchMasterCard (l : List Char) : Bool :=
  (l.take 1 == ['5'] && inClass l 1 ['1', '2', '3', '4', '5'] &&
    (l.drop 2).all Char.isDigit && (l.drop 2).length == 14) ||
  (l.take 1 == ['2'] && inClass l 1 ['2', '3', '4', '5', '6', '7'] &&
    (l.drop 2).all Char.isDigit && (l.drop 2).length == 14)

/-- Embeds the American Express pattern (src/app.py line 11): a 3 followed
by 4 or 7 and 13 digits, anchored. -/
def matchAmex (l : List Char) : Bool :=
  l.take 1 == ['3'] && inClass l 1 ['4', '7'] &&
    (l.drop 2).all Char.isDigit && (l.drop 2).length == 13

/-- Embeds the Diners Club pattern (src/app.py line 12): a 3 followed by
one of 0, 6, 8, 9 and then exactly 11 digits (13 characters in all), or 54
or 55 followed by 14 digits (16 characters in all), anchored. -/
def matchDiners (l : List Char) : Bool :=
  (l.take 1 == ['3'] && inClass l 1 ['0', '6', '8', '9'] &&
    (l.drop 2).all Char.isDigit && (l.drop 2).length == 11) ||
  (l.take 2 == ['5', '4'] && (l.drop 2).all Char.isDigit &&
    (l.drop 2).length == 14) ||
  (l.take 2 == ['5', '5'] && (l.drop 2).all Char.isDigit &&
    (l.drop 2).length == 14)

/-- Embeds the Discover pattern (src/app.py line 13): 6011, or 65 plus two
digits, then 12 digits, anchored. -/
def matchDiscover (l : List Char) : Bool :=
  (l.take 4 == ['6', '0', '1', '1'] ||
    (l.take 2 == ['6', '5'] && isDigitAt l 2 && isDigitAt l 3)) &&
  (l.drop 4).all Char.isDigit && (l.drop 4).length == 12

/-- Embeds the enRoute pattern (src/app.py line 14): 2014 or 2149, then 11
digits, anchored. -/
def matchEnRoute (l : List Char) : Bool :=
  (l.take 4 == ['2', '0', '1', '4'] || l.take 4 == ['2', '1', '4', '9']) &&
  (l.drop 4).all Char.isDigit && (l.drop 4).length == 11

/-- Embeds the JCB pattern (src/app.py line 15): 2131 or 1800 then 11
digits (15 in all), or 35 plus three digits then 11 digits (16 in all),
anchored. -/
def matchJCB (l : List Char) : Bool :=
  ((l.take 4 == ['2', '1', '3', '1'] || l.take 4 == ['1', '8', '0', '0']) &&
    (l.drop 4).all Char.isDigit && (l.drop 4).length == 11) ||
  (l.take 2 == ['3', '5'] && isDigitAt l 2 && isDigitAt l 3 && isDigitAt l 4 &&
    (l.drop 5).all Char.isDigit && (l.drop 5).length == 11)

/-- Embeds the Voyager pattern (src/app.py line 16): 8699 then 11 digits,
anchored. -/
def matchVoyager (l : List Char) : Bool :=
  l.take 4 == ['8', '6', '9', '9'] && (l.drop 4).all Char.isDigit &&
    (l.drop 4).length == 11

/-- Embeds the HiperCard pattern (src/app.py line 17): 606282 then 10
digits then optionally 3 more (16 or 19 in all), or 3841 then 15 digits
(19 in all), anchored. -/
def matchHiperCard (l : List Char) : Bool :=
  (l.take 6 == ['6', '0', '6', '2', '8', '2'] && (l.drop 6).all Char.isDigit &&
    ((l.drop 6).length == 10 || (l.drop 6).length == 13)) ||
  (l.take 4 == ['3', '8', '4', '1'] && (l.drop 4).all Char.isDigit &&
    (l.drop 4).length == 15)

/-- Embeds the Aura pattern (src/app.py line 18): 50 then 14 digits,
anchored. -/
def matchAura (l : List Char) : Bool :=
  l.take 2 == ['5', '0'] && (l.drop 2).all Char.isDigit &&
    (l.drop 2).length == 14

/-- Embeds `self.card_patterns` (src/app.py line 8-19) in its insertion
order, which Python dict iteration preserves. -/
def card_patterns : List (String × (List Char → Bool)) :=
  [("Visa", matchVisa),
   ("MasterCard", matchMasterCard),
   ("American Express", matchAmex),
   ("Diners Club", matchDiners),
   ("Discover", matchDiscover),
   ("enRoute", matchEnRoute),
   ("JCB", matchJCB),
   ("Voyager", matchVoyager),
   ("HiperCard", matchHiperCard),
   ("Aura", matchAura)]

/-- Embeds `identify_card_brand` (src/app.py line 40-48): clean the input,
return the name of the first pattern that matches, else the sentinel. -/
def identify_card_brand (card_number : String) : String :=
  match card_patterns.find? (fun p => p.2 (clean_card_number card_number).data) with
  | some p => p.1
  | none => "Bandeira não identificada"

/-- Embeds `validate_card` (src/app.py line 50-83).  The two structural
early returns build dicts with only the keys valid, brand, error; the
final return has all four keys.  The local variables of the source are
inlined (all calls are pure). -/
def validate_card (card_number : String) : PyDict :=
  if pyIsDigit (clean_card_number card_number) = false then
    [("valid", PyVal.pyBool false),
     ("brand", PyVal.pyNone),
     ("error", PyVal.pyStr "Número deve conter apenas dígitos")]
  else if (clean_card_number card_number).length < 13 ∨
      (clean_card_number card_number).length > 19 then
    [("valid", PyVal.pyBool false),
     ("brand", PyVal.pyNone),
     ("error", PyVal.pyStr "Número deve ter entre 13 e 19 dígitos")]
  else
    [("valid", PyVal.pyBool
        (luhn_algorithm (clean_card_number card_number) &&
          !(identify_card_brand (clean_card_number card_number) ==
            "Bandeira não identificada"))),
     ("brand",
        if !(identify_card_brand (clean_card_number card_number) ==
            "Bandeira não identificada") then
          PyVal.pyStr (identify_card_brand (clean_card_number card_number))
        else PyVal.pyNone),
     ("luhn_valid", PyVal.pyBool (luhn_algorithm (clean_card_number card_number))),
     ("error",
        if luhn_algorithm (clean_card_number card_number) &&
            !(identify_card_brand (clean_card_number card_number) ==
              "Bandeira não identificada") then
          PyVal.pyNone
        else if luhn_algorithm (clean_card_number card_number) = false then
          PyVal.pyStr "Número inválido pelo algoritmo de Luhn"
        else PyVal.pyStr "Bandeira não suportada")]

/-- The conditions under which `validate_card` reaches its final return:
the cleaned number passes `isdigit` and the length test. -/
def passesStructural (s : String) : Prop :=
  pyIsDigit (clean_card_number s) = true ∧
  ¬ ((clean_card_number s).length < 13 ∨ (clean_card_number s).length > 19)

instance (s : String) : Decidable (passesStructural s) := by
  unfold passesStructural; infer_instance

theorem dictGet4_valid (a b c d : PyVal) :
    dictGet [("valid", a), ("brand", b), ("luhn_valid", c), ("error", d)] "valid" =
      some a := rfl

theorem dictGet4_brand (a b c d : PyVal) :
    dictGet [("valid", a), ("brand", b), ("luhn_valid", c), ("error", d)] "brand" =
      some b := rfl

theorem dictGet4_luhn (a b c d : PyVal) :
    dictGet [("valid", a), ("brand", b), ("luhn_valid", c), ("error", d)] "luhn_valid" =
      some c := rfl

theorem dictGet4_error (a b c d : PyVal) :
    dictGet [("valid", a), ("brand", b), ("luhn_valid", c), ("error", d)] "error" =
      some d := rfl

theorem dictGet3_valid (a b d : PyVal) :
    dictGet [("valid", a), ("brand", b), ("error", d)] "valid" = some a := rfl

theorem dictGet3_error (a b d : PyVal) :
    dictGet [("valid", a), ("brand", b), ("error", d)] "error" = some d := rfl

theorem pyIsDigit_true_of_not_false {s : String}
    (h : ¬ pyIsDigit s = false) : pyIsDigit s = true := by
  revert h; cases pyIsDigit s <;> simp

theorem validate_card_nondigit (s : String)
    (h1 : pyIsDigit (clean_card_number s) = false) :
    validate_card s =
      [("valid", PyVal.pyBool false), ("brand", PyVal.pyNone),
       ("error", PyVal.pyStr "Número deve conter apenas dígitos")] := by
  unfold validate_card
  rw [h1]
  simp

theorem validate_card_badlength (s : String)
    (h1 : pyIsDigit (clean_card_number s) = true)
    (h2 : (clean_card_number s).length < 13 ∨ (clean_card_number s).length > 19) :
    validate_card s =
      [("valid", PyVal.pyBool false), ("brand", PyVal.pyNone),
       ("error", PyVal.pyStr "Número deve ter entre 13 e 19 dígitos")] := by
  unfold validate_card
  rw [h1]
  simp [h2]

theorem validate_card_of_structural (s : String) (h : passesStructural s) :
    validate_card s =
      [("valid", PyVal.pyBool
          (luhn_algorithm (clean_card_number s) &&
            !(identify_card_brand (clean_card_number s) ==
              "Bandeira não identificada"))),
       ("brand",
          if !(identify_card_brand (clean_card_number s) ==
              "Bandeira não identificada") then
            PyVal.pyStr (identify_card_brand (clean_card_number s))
          else PyVal.pyNone),
       ("luhn_valid", PyVal.pyBool (luhn_algorithm (clean_card_number s))),
       ("error",
          if luhn_algorithm (clean_card_number s) &&
              !(identify_card_brand (clean_card_number s) ==
                "Bandeira não identificada") then
            PyVal.pyNone
          else if luhn_algorithm (clean_card_number s) = false then
            PyVal.pyStr "Número inválido pelo algoritmo de Luhn"
          else PyVal.pyStr "Bandeira não suportada")] := by
  obtain ⟨h1, h2⟩ := h
  unfold validate_card
  rw [h1]
  simp [h2]

theorem clean_card_number_of_digits (s : String)
    (h : s.data.all Char.isDigit = true) : clean_card_number s = s := by
  unfold clean_card_number
  have hf : s.data.filter Char.isDigit = s.data :=
    List.filter_eq_self.mpr (fun a ha => List.all_eq_true.mp h a ha)
  rw [hf]

/-- C1: the spec says every 14-digit string starting with 300-305, 36, 38
or 39 is classified as Diners Club, and the repository's own test list
labels the 14-digit number 30569309025904 as Diners Club; but the code's
Diners Club pattern only matches 13-character strings, so the classifier
returns the unidentified sentinel on that very number and validate marks
it invalid. -/
theorem C1_repo_diners_test_number_unrecognized :
    identify_card_brand "30569309025904" = "Bandeira não identificada" ∧
    dictGet (validate_card "30569309025904") "valid" =
      some (PyVal.pyBool false) := by decide

/-- C3: the dicts returned on structural rejection carry only the keys
valid, brand and error; the luhn_valid key required by the claimed
four-field record (and read unconditionally by the CLI caller) is absent.
The input abc-123 normalizes to 123, which fails the length check. -/
theorem C3_structural_reject_lacks_luhn_key :
    hasKey (validate_card "abc-123") "valid" = true ∧
    hasKey (validate_card "abc-123") "brand" = true ∧
    hasKey (validate_card "abc-123") "error" = true ∧
    hasKey (validate_card "abc-123") "luhn_valid" = false := by decide

/-- C4 counterexample: the claim that the Luhn evaluator returns false on
the empty digit string is refuted by the code, whose checksum over no
digits is 0, and 0 is divisible by 10. -/
theorem C4_luhn_empty_not_false : ¬ luhn_algorithm "" = false := by decide

/-- C4 (amended): the Luhn evaluator applied to the empty digit string
returns true, since the empty checksum 0 is divisible by 10. -/
theorem C4_luhn_empty_returns_true : luhn_algorithm "" = true := by decide

/-- C8: the normalizer keeps exactly the decimal digits of its input (its
output passes an all-digit check) and is idempotent. -/
theorem C8_normalize_digits_idempotent (s : String) :
    (clean_card_number s).data.all Char.isDigit = true ∧
    clean_card_number (clean_card_number s) = clean_card_number s := by
  constructor
  · simp [clean_card_number, List.all_eq_true, List.mem_filter]
  · simp [clean_card_number, List.filter_filter, Bool.and_self]

/-- C2: for every raw input whose normalized form passes the structural
checks, the returned dict has valid true exactly when luhn_valid is true
and the brand field is non-null. -/
theorem C2_valid_iff_luhn_and_brand (s : String) (h : passesStructural s) :
    dictGet (validate_card s) "valid" = some (PyVal.pyBool true) ↔
      (dictGet (validate_card s) "luhn_valid" = some (PyVal.pyBool true) ∧
       dictGet (validate_card s) "brand" ≠ some PyVal.pyNone) := by
  rw [validate_card_of_structural s h, dictGet4_valid, dictGet4_luhn,
    dictGet4_brand]
  cases hL : luhn_algorithm (clean_card_number s) <;>
    cases hB : identify_card_brand (clean_card_number s) ==
      "Bandeira não identificada" <;>
    simp [hL, hB]

/-- C2 witness: the Visa test number passes the structural checks and
instantiates the equivalence. -/
theorem C2_valid_iff_luhn_and_brand_witness :
    passesStructural "4532015112830366" ∧
    (dictGet (validate_card "4532015112830366") "valid" =
        some (PyVal.pyBool true) ↔
      (dictGet (validate_card "4532015112830366") "luhn_valid" =
          some (PyVal.pyBool true) ∧
       dictGet (validate_card "4532015112830366") "brand" ≠
          some PyVal.pyNone)) :=
  ⟨by decide, C2_valid_iff_luhn_and_brand "4532015112830366" (by decide)⟩

/-- C5: for every raw input, the error field of the returned dict is
non-null exactly when the valid field is false. -/
theorem C5_error_nonnull_iff_invalid (s : String) :
    dictGet (validate_card s) "error" ≠ some PyVal.pyNone ↔
      dictGet (validate_card s) "valid" = some (PyVal.pyBool false) := by
  by_cases h1 : pyIsDigit (clean_card_number s) = false
  · rw [validate_card_nondigit s h1, dictGet3_error, dictGet3_valid]
    simp
  · replace h1 := pyIsDigit_true_of_not_false h1
    by_cases h2 : (clean_card_number s).length < 13 ∨
        (clean_card_number s).length > 19
    · rw [validate_card_badlength s h1 h2, dictGet3_error, dictGet3_valid]
      simp
    · rw [validate_card_of_structural s ⟨h1, h2⟩, dictGet4_error,
        dictGet4_valid]
      cases hL : luhn_algorithm (clean_card_number s) <;>
        cases hB : identify_card_brand (clean_card_number s) ==
          "Bandeira não identificada" <;>
        simp [hL, hB]

/-- C6: once the structural checks pass, a Luhn failure is always the
reported error, even when no brand matched; the unsupported-brand error is
reported only when the Luhn check passed and no rule matched. -/
theorem C6_error_priority (s : String) (h : passesStructural s) :
    (luhn_algorithm (clean_card_number s) = false →
      dictGet (validate_card s) "error" =
        some (PyVal.pyStr "Número inválido pelo algoritmo de Luhn")) ∧
    (luhn_algorithm (clean_card_number s) = true →
      identify_card_brand (clean_card_number s) = "Bandeira não identificada" →
      dictGet (validate_card s) "error" =
        some (PyVal.pyStr "Bandeira não suportada")) := by
  rw [validate_card_of_structural s h]
  simp only [dictGet4_error]
  constructor
  · intro hL
    simp [hL]
  · intro hL hB
    simp [hL, hB]

/-- C6 witness: thirteen zeros pass the structural checks, pass Luhn
(checksum 0), match no brand rule, and get the unsupported-brand error. -/
theorem C6_error_priority_witness :
    passesStructural "0000000000000" ∧
    ((luhn_algorithm (clean_card_number "0000000000000") = false →
      dictGet (validate_card "0000000000000") "error" =
        some (PyVal.pyStr "Número inválido pelo algoritmo de Luhn")) ∧
     (luhn_algorithm (clean_card_number "0000000000000") = true →
      identify_card_brand (clean_card_number "0000000000000") =
        "Bandeira não identificada" →
      dictGet (validate_card "0000000000000") "error" =
        some (PyVal.pyStr "Bandeira não suportada"))) :=
  ⟨by decide, C6_error_priority "0000000000000" (by decide)⟩

/-- C9: validate is total and encodes every outcome as data: the valid
field is always a boolean, and the error field is always either null or
one of the four diagnostic messages (non-digit, length, Luhn, brand). -/
theorem C9_validate_total_error_encoded (s : String) :
    (∃ b : Bool, dictGet (validate_card s) "valid" = some (PyVal.pyBool b)) ∧
    (dictGet (validate_card s) "error" = some PyVal.pyNone ∨
     dictGet (validate_card s) "error" =
       some (PyVal.pyStr "Número deve conter apenas dígitos") ∨
     dictGet (validate_card s) "error" =
       some (PyVal.pyStr "Número deve ter entre 13 e 19 dígitos") ∨
     dictGet (validate_card s) "error" =
       some (PyVal.pyStr "Número inválido pelo algoritmo de Luhn") ∨
     dictGet (validate_card s) "error" =
       some (PyVal.pyStr "Bandeira não suportada")) := by
  by_cases h1 : pyIsDigit (clean_card_number s) = false
  · rw [validate_card_nondigit s h1, dictGet3_error, dictGet3_valid]
    exact ⟨⟨false, rfl⟩, by simp⟩
  · replace h1 := pyIsDigit_true_of_not_false h1
    by_cases h2 : (clean_card_number s).length < 13 ∨
        (clean_card_number s).length > 19
    · rw [validate_card_badlength s h1 h2, dictGet3_error, dictGet3_valid]
      exact ⟨⟨false, rfl⟩, by simp⟩
    · rw [validate_card_of_structural s ⟨h1, h2⟩, dictGet4_error,
        dictGet4_valid]
      refine ⟨⟨_, rfl⟩, ?_⟩
      cases hL : luhn_algorithm (clean_card_number s) <;>
        cases hB : identify_card_brand (clean_card_number s) ==
          "Bandeira não identificada" <;>
        simp [hL, hB]

/-- C10: when the structural checks pass, a brand rule matched, and the
Luhn check fails, the returned dict still reports the identified brand
while valid is false. -/
theorem C10_brand_reported_despite_luhn_failure (s : String)
    (h : passesStructural s)
    (hb : identify_card_brand (clean_card_number s) ≠ "Bandeira não identificada")
    (hl : luhn_algorithm (clean_card_number s) = false) :
    dictGet (validate_card s) "brand" =
      some (PyVal.pyStr (identify_card_brand (clean_card_number s))) ∧
    dictGet (validate_card s) "valid" = some (PyVal.pyBool false) := by
  rw [validate_card_of_structural s h, dictGet4_brand, dictGet4_valid]
  have hb' : (identify_card_brand (clean_card_number s) ==
      "Bandeira não identificada") = false := by
    simp [hb]
  simp [hl, hb']

/-- C10 witness: the Visa test number with its last digit altered matches
the Visa rule but fails Luhn; the brand is still reported and valid is
false. -/
theorem C10_brand_reported_despite_luhn_failure_witness :
    passesStructural "4532015112830367" ∧
    (dictGet (validate_card "4532015112830367") "brand" =
      some (PyVal.pyStr
        (identify_card_brand (clean_card_number "4532015112830367"))) ∧
     dictGet (validate_card "4532015112830367") "valid" =
      some (PyVal.pyBool false)) :=
  ⟨by decide, C10_brand_reported_despite_luhn_failure "4532015112830367"
    (by decide) (by decide) (by decide)⟩

theorem find_mastercard_of_54_55 (c2 : Char) (rest : List Char)
    (hc : c2 = '4' ∨ c2 = '5')
    (hall : rest.all Char.isDigit = true)
    (hlen : rest.length = 14) :
    matchMasterCard ('5' :: c2 :: rest) = true ∧
    matchDiners ('5' :: c2 :: rest) = true ∧
    card_patterns.find? (fun p => p.2 ('5' :: c2 :: rest)) =
      some ("MasterCard", matchMasterCard) := by
  have hV : matchVisa ('5' :: c2 :: rest) = false := rfl
  have hMC : matchMasterCard ('5' :: c2 :: rest) = true := by
    have hIn4 : inClass ('5' :: '4' :: rest) 1 ['1', '2', '3', '4', '5'] =
      true := rfl
    have hIn5 : inClass ('5' :: '5' :: rest) 1 ['1', '2', '3', '4', '5'] =
      true := rfl
    rcases hc with h | h <;> subst h <;>
      simp [matchMasterCard, hIn4, hIn5, hall, hlen]
  have hD : matchDiners ('5' :: c2 :: rest) = true := by
    rcases hc with h | h <;> subst h <;>
      simp [matchDiners, hall, hlen]
  refine ⟨hMC, hD, ?_⟩
  simp [card_patterns, List.find?, hV, hMC]

/-- C7: rule order decides overlaps: every 16-character digit string
starting with 54 or 55 is matched both by the MasterCard rule and by the
Diners Club rule, and the classifier returns MasterCard, the
earlier-ordered one. -/
theorem C7_mastercard_wins_overlap (s : String)
    (hd : s.data.all Char.isDigit = true)
    (hl : s.data.length = 16)
    (hp : s.data.take 2 = ['5', '4'] ∨ s.data.take 2 = ['5', '5']) :
    matchMasterCard s.data = true ∧ matchDiners s.data = true ∧
      identify_card_brand s = "MasterCard" := by
  have hclean : clean_card_number s = s := clean_card_number_of_digits s hd
  rcases hsd : s.data with _ | ⟨c1, _ | ⟨c2, rest⟩⟩
  · rw [hsd] at hp
    simp at hp
  · rw [hsd] at hp
    simp at hp
  · rw [hsd] at hp hd hl
    simp at hp
    have hc1 : c1 = '5' := by rcases hp with ⟨h, _⟩ | ⟨h, _⟩ <;> exact h
    have hc2 : c2 = '4' ∨ c2 = '5' := by
      rcases hp with ⟨_, h⟩ | ⟨_, h⟩
      · exact Or.inl h
      · exact Or.inr h
    subst hc1
    simp [List.all_cons, Bool.and_eq_true] at hd
    have hrest : rest.all Char.isDigit = true := List.all_eq_true.mpr hd.2
    have hlen : rest.length = 14 := by
      simp [List.length_cons] at hl
      omega
    obtain ⟨hMC, hD, hfind⟩ := find_mastercard_of_54_55 c2 rest hc2 hrest hlen
    refine ⟨hMC, hD, ?_⟩
    unfold identify_card_brand
    rw [hclean, hsd, hfind]

/-- C7 witness: a concrete 16-digit number starting with 54 instantiates
the overlap and first-match-wins statement. -/
theorem C7_mastercard_wins_overlap_witness :
    ("5412345678901234".data.all Char.isDigit = true ∧
     "5412345678901234".data.length = 16 ∧
     ("5412345678901234".data.take 2 = ['5', '4'] ∨
      "5412345678901234".data.take 2 = ['5', '5'])) ∧
    (matchMasterCard "5412345678901234".data = true ∧
     matchDiners "5412345678901234".data = true ∧
     identify_card_brand "5412345678901234" = "MasterCard") :=
  ⟨⟨by decide, by decide, by decide⟩,
   C7_mastercard_wins_overlap "5412345678901234" (by decide) (by decide)
     (by decide)⟩
